import Mathlib

/-!
# The HTTP server of `main.go`

`main.go` registers two handlers on the default router of Go's `net/http`
package, logs one line and calls `http.ListenAndServe(":8000", nil)`.

The development has three layers.

* The program itself (`version`, `versionHandler`, `rootHandler`, `main`),
  translated statement by statement into state-passing functions.
* The part of `net/http` that the program drives: the classic `ServeMux`
  (`Handle`, `match`, `handler`, `Handler`, `ServeHTTP`, `cleanPath`,
  `path.Clean`, `appendSorted`), `http.Error`, `http.Redirect`, the server's
  choice of handler, and the `ResponseWriter` interface.  Strings stand for Go
  strings and byte slices; every byte that the router inspects is ASCII.
* The process environment (`OS`): arguments, environment variables, the
  logger's clock and the outcome of the listen call.
-/

namespace GoPipeline

/-! ## Go strings -/

/-- Go `error`: `none` is the nil error. -/
abbrev GoError := Option String

/-- Go `strings.HasPrefix(s, pre)`. -/
def HasPrefix (s pre : String) : Bool := pre.data.isPrefixOf s.data

/-- Go `strings.HasSuffix(s, "/")`, also written `s[len(s)-1] == '/'` on a
non-empty string. -/
def endsInSlash (s : String) : Bool := s.data.getLast? = some '/'

/-- Go `len(s)`: the number of bytes. -/
def len (s : String) : Nat := s.utf8ByteSize

/-! ## `path.Clean` and `cleanPath` -/

/-- The elements of a path between its slashes (`"/a//b"` gives
`["", "a", "", "b"]`). -/
def splitSlash : List Char → List (List Char)
  | [] => [[]]
  | c :: cs =>
    match splitSlash cs with
    | [] => [[c]]
    | seg :: rest => if c = '/' then [] :: seg :: rest else (c :: seg) :: rest

/-- The element walk of `path.Clean`: empty elements and `.` are dropped, `..`
removes the element before it, at the root `..` is dropped, and in a relative
path a leading run of `..` is kept.  `stack` holds the kept elements, last
first. -/
def cleanSegs (rooted : Bool) : List (List Char) → List (List Char) → List (List Char)
  | stack, [] => stack.reverse
  | stack, seg :: rest =>
    if seg = [] ∨ seg = ['.'] then cleanSegs rooted stack rest
    else if seg = ['.', '.'] then
      match stack with
      | [] => if rooted then cleanSegs rooted [] rest else cleanSegs rooted [seg] rest
      | top :: below =>
        if !rooted ∧ top = ['.', '.'] then cleanSegs rooted (seg :: stack) rest
        else cleanSegs rooted below rest
    else cleanSegs rooted (seg :: stack) rest

/-- Elements joined by single slashes. -/
def joinSlash : List (List Char) → List Char
  | [] => []
  | [seg] => seg
  | seg :: rest => seg ++ '/' :: joinSlash rest

/-- Go `path.Clean`: the shortest path name equivalent to `p` by purely lexical
processing; the empty path becomes `"."`. -/
def pathClean (p : String) : String :=
  if p = "" then "."
  else
    let rooted := p.data.head? = some '/'
    let segs := cleanSegs rooted [] (splitSlash p.data)
    if rooted then ⟨'/' :: joinSlash segs⟩
    else if segs = [] then "." else ⟨joinSlash segs⟩

/-- Go `net/http.cleanPath`: the canonical path for `p`, eliminating `.` and
`..` elements and keeping a trailing slash. -/
def cleanPath (p : String) : String :=
  if p = "" then "/"
  else
    let p := if p.data.head? ≠ some '/' then "/" ++ p else p
    let np := pathClean p
    if endsInSlash p ∧ np ≠ "/" then
      if len p = len np + 1 ∧ HasPrefix p np then p else np ++ "/"
    else np

/-! ## Requests, handlers and response writers -/

/-- The fields of `url.URL` that the router reads. -/
structure URL where
  Host : String
  Path : String
  RawQuery : String
deriving DecidableEq, Repr

/-- The fields of `http.Request` that the router and the handlers can read. -/
structure Request where
  Method : String
  URL : URL
  ProtoMajor : Nat
  ProtoMinor : Nat
  Host : String
  RequestURI : String
  Header : List (String × String)
  Body : String
deriving DecidableEq, Repr

/-- What the server's request reader guarantees about a request it hands to a
handler: the request target `*` is parsed to the path `*`, or to the empty
path when the method is CONNECT. -/
def Request.fromServer (r : Request) : Prop :=
  r.RequestURI = "*" → r.URL.Path = "*" ∨ r.URL.Path = ""

instance (r : Request) : Decidable r.fromServer := by
  unfold Request.fromServer; infer_instance

/-- The two handler functions that `main.go` declares. -/
inductive HandlerFunc
  | versionHandler
  | rootHandler
deriving DecidableEq, Repr

/-- The `http.Handler` values that occur in this program: a declared function
wrapped by `http.HandlerFunc`, `http.NotFoundHandler()` and
`http.RedirectHandler(url, code)`. -/
inductive Handler
  | func (f : HandlerFunc)
  | NotFoundHandler
  | RedirectHandler (url : String) (code : Nat)
deriving DecidableEq, Repr

/-- Go `http.Header`, a map from field name to value. -/
abbrev Header := List (String × String)

/-- Go `Header.Set`. -/
def Header.Set (h : Header) (key value : String) : Header :=
  (key, value) :: h.filter (fun kv => kv.1 ≠ key)

/-- Presence test `_, ok := h[key]`. -/
def Header.has (h : Header) (key : String) : Bool := (h.lookup key).isSome

/-- The method set of the `http.ResponseWriter` interface over an
implementation with state `σ`.  `Write` returns the new state, the byte count
and the error; `putHeader` is the mutation made through the map that
`Header()` returns. -/
structure ResponseWriter (σ : Type) where
  Header : σ → Header
  putHeader : σ → GoPipeline.Header → σ
  Write : σ → String → σ × Nat × GoError
  WriteHeader : σ → Nat → σ

/-! ## The classic `ServeMux` -/

/-- Go `muxEntry`. -/
structure muxEntry where
  h : Handler
  pattern : String
deriving DecidableEq, Repr

/-- Go `ServeMux`: `m` is the pattern map, `es` the entries whose pattern ends
in a slash, sorted from longest to shortest, `hosts` whether any pattern
contains a host name. -/
structure ServeMux where
  m : List (String × muxEntry)
  es : List muxEntry
  hosts : Bool
deriving DecidableEq, Repr

/-- Go `NewServeMux()`, also the initial `DefaultServeMux`. -/
def NewServeMux : ServeMux := ⟨[], [], false⟩

/-- Go `appendSorted`: insert `e` in front of the first entry whose pattern is
shorter (the index that the binary search finds in a slice sorted from longest
to shortest). -/
def appendSorted : List muxEntry → muxEntry → List muxEntry
  | [], e => [e]
  | x :: xs, e =>
    if len x.pattern < len e.pattern then e :: x :: xs else x :: appendSorted xs e

/-- Go `(*ServeMux).Handle`: registers the handler for the pattern; the error
is the value it panics with. -/
def ServeMux.Handle (mux : ServeMux) (pattern : String) (handler : Handler) :
    Except String ServeMux :=
  if pattern = "" then .error "http: invalid pattern"
  else if (mux.m.lookup pattern).isSome then
    .error ("http: multiple registrations for " ++ pattern)
  else
    let e : muxEntry := ⟨handler, pattern⟩
    .ok { m := (pattern, e) :: mux.m
          es := if endsInSlash pattern then appendSorted mux.es e else mux.es
          hosts := mux.hosts || (pattern.data.head? ≠ some '/') }

/-- Go `(*ServeMux).match`: an exact match first, then the longest pattern
ending in a slash that is a prefix of the path. -/
def ServeMux.match' (mux : ServeMux) (path : String) : Option Handler × String :=
  match mux.m.lookup path with
  | some v => (some v.h, v.pattern)
  | none =>
    match mux.es.find? (fun e => HasPrefix path e.pattern) with
    | some e => (some e.h, e.pattern)
    | none => (none, "")

/-- Go `(*ServeMux).handler`: a host-specific pattern takes precedence over a
generic one; without a match the handler is `NotFoundHandler()`. -/
def ServeMux.handler (mux : ServeMux) (host path : String) : Handler × String :=
  let r := if mux.hosts then mux.match' (host ++ path) else (none, "")
  let r := if r.1 = none then mux.match' path else r
  match r.1 with
  | some h => (h, r.2)
  | none => (Handler.NotFoundHandler, "")

/-- Go `(*ServeMux).shouldRedirectRLocked`: whether `path` is unregistered
while `path + "/"` is registered. -/
def ServeMux.shouldRedirectRLocked (mux : ServeMux) (host path : String) : Bool :=
  let p := [path, host ++ path]
  if p.any (fun c => (mux.m.lookup c).isSome) then false
  else if len path = 0 then false
  else if p.any (fun c => (mux.m.lookup (c ++ "/")).isSome) then !endsInSlash path
  else false

/-- Library functions of `net`, `net/url` and `net/http` whose result the
router passes on without looking at it. -/
structure Lib where
  stripHostPort : String → String
  urlString : URL → String
  redirectLocation : Request → String → String
  redirectNote : String → Nat → String

/-- Go `(*ServeMux).redirectToPathSlash`. -/
def ServeMux.redirectToPathSlash (mux : ServeMux) (host path : String) (u : URL) :
    URL × Bool :=
  if !mux.shouldRedirectRLocked host path then (u, false)
  else (⟨"", path ++ "/", u.RawQuery⟩, true)

/-- Go `(*ServeMux).Handler`: the handler to use for the request and the
pattern that matched. -/
def ServeMux.Handler (lib : Lib) (mux : ServeMux) (r : Request) : Handler × String :=
  if r.Method = "CONNECT" then
    let (u, ok) := mux.redirectToPathSlash r.URL.Host r.URL.Path r.URL
    if ok then (Handler.RedirectHandler (lib.urlString u) 301, u.Path)
    else mux.handler r.Host r.URL.Path
  else
    let host := lib.stripHostPort r.Host
    let path := cleanPath r.URL.Path
    let (u, ok) := mux.redirectToPathSlash host path r.URL
    if ok then (Handler.RedirectHandler (lib.urlString u) 301, u.Path)
    else if path ≠ r.URL.Path then
      let pattern := (mux.handler host path).2
      (Handler.RedirectHandler (lib.urlString ⟨"", path, r.URL.RawQuery⟩) 301, pattern)
    else mux.handler host r.URL.Path

/-! ## Library handlers -/

/-- Go `http.Error`: replies with the error message as plain text and the given
status code. -/
def Error {σ : Type} (W : ResponseWriter σ) (w : σ) (error : String) (code : Nat) : σ :=
  let w := W.putHeader w ((W.Header w).Set "Content-Type" "text/plain; charset=utf-8")
  let w := W.putHeader w ((W.Header w).Set "X-Content-Type-Options" "nosniff")
  let w := W.WriteHeader w code
  (W.Write w (error ++ "\n")).1

/-- Go `http.Redirect`: sets the `Location` field, writes the status code and,
for a GET request without a content type, a short HTML note.  The resolved and
escaped location and the text of the note come from `lib`. -/
def Redirect {σ : Type} (lib : Lib) (W : ResponseWriter σ) (w : σ) (r : Request)
    (url : String) (code : Nat) : σ :=
  let h := W.Header w
  let hadCT := h.has "Content-Type"
  let h := h.Set "Location" (lib.redirectLocation r url)
  let h := if !hadCT ∧ (r.Method = "GET" ∨ r.Method = "HEAD") then
    h.Set "Content-Type" "text/html; charset=utf-8" else h
  let w := W.putHeader w h
  let w := W.WriteHeader w code
  if !hadCT ∧ r.Method = "GET" then (W.Write w (lib.redirectNote url code ++ "\n")).1 else w

/-! ## The program: constant and handlers -/

/-- The mutable state that a handler invocation can reach: its response
writer, the request behind the pointer it receives, and the package-level
router. -/
structure Env (σ : Type) where
  w : σ
  r : Request
  DefaultServeMux : ServeMux

/-- Line 9: `const version string = "2.0.2"`. -/
def version : String := "2.0.2"

/-- Go `io.WriteString(w, s)`: one call of the writer's write method with the
bytes of `s`; it returns the writer's byte count and error. -/
def ioWriteString {σ : Type} (W : ResponseWriter σ) (w : σ) (s : String) : σ × Nat × GoError :=
  W.Write w s

/-- Lines 13-15: `func versionHandler(w http.ResponseWriter, r *http.Request)`. -/
def versionHandler {σ : Type} (W : ResponseWriter σ) (e : Env σ) : Env σ :=
  let (w, _n, _err) := ioWriteString W e.w version
  { e with w := w }

/-- Lines 19-21: `func rootHandler(w http.ResponseWriter, r *http.Request)`. -/
def rootHandler {σ : Type} (W : ResponseWriter σ) (e : Env σ) : Env σ :=
  let (w, _n, _err) := ioWriteString W e.w "Hello, World!"
  { e with w := w }

/-! ## Serving a request -/

/-- The call `f(w, r)` made by `HandlerFunc.ServeHTTP`. -/
def HandlerFunc.call {σ : Type} (W : ResponseWriter σ) : HandlerFunc → Env σ → Env σ
  | .versionHandler, e => GoPipeline.versionHandler W e
  | .rootHandler, e => GoPipeline.rootHandler W e

/-- The `ServeHTTP` method of each handler value. -/
def Handler.ServeHTTP {σ : Type} (lib : Lib) (W : ResponseWriter σ) : Handler → Env σ → Env σ
  | .func f, e => f.call W e
  | .NotFoundHandler, e => { e with w := Error W e.w "404 page not found" 404 }
  | .RedirectHandler url code, e => { e with w := Redirect lib W e.w e.r url code }

/-- Go `(*Request).ProtoAtLeast`. -/
def Request.ProtoAtLeast (r : Request) (major minor : Nat) : Bool :=
  r.ProtoMajor > major || (r.ProtoMajor == major && r.ProtoMinor >= minor)

/-- Go `(*ServeMux).ServeHTTP`: a request for `*` is answered with 400, any
other request by the handler that `Handler` selects. -/
def ServeMux.ServeHTTP {σ : Type} (lib : Lib) (W : ResponseWriter σ) (mux : ServeMux)
    (e : Env σ) : Env σ :=
  if e.r.RequestURI = "*" then
    let w := if e.r.ProtoAtLeast 1 1 then
      W.putHeader e.w ((W.Header e.w).Set "Connection" "close") else e.w
    { e with w := W.WriteHeader w 400 }
  else (mux.Handler lib e.r).1.ServeHTTP lib W e

/-- Go `globalOptionsHandler.ServeHTTP`: announces an empty body and discards
up to 4 KiB of the request body. -/
def globalOptionsHandler {σ : Type} (W : ResponseWriter σ) (e : Env σ) : Env σ :=
  { e with w := W.putHeader e.w ((W.Header e.w).Set "Content-Length" "0")
           r := { e.r with Body := ⟨e.r.Body.data.drop 4096⟩ } }

/-- Go `http.Server`, as far as `ListenAndServe(addr, handler)` fills it in; a
nil handler is `none`. -/
structure Server where
  Addr : String
  Handler : Option Handler
deriving DecidableEq, Repr

/-- Go `serverHandler.ServeHTTP`: a nil server handler means
`DefaultServeMux`; `OPTIONS *` goes to the global options handler. -/
def Server.ServeHTTP {σ : Type} (lib : Lib) (W : ResponseWriter σ) (srv : Server)
    (e : Env σ) : Env σ :=
  if e.r.RequestURI = "*" ∧ e.r.Method = "OPTIONS" then globalOptionsHandler W e
  else
    match srv.Handler with
    | none => e.DefaultServeMux.ServeHTTP lib W e
    | some h => h.ServeHTTP lib W e

/-! ## Response writers -/

/-- A recording response writer in the manner of `httptest.ResponseRecorder`:
the status code is 200 until `WriteHeader` sets it, and the first write sends
the header.  `connErr` is the state of the connection: once it holds an error
every write fails with it. -/
structure Recorder where
  HeaderMap : Header
  Code : Nat
  Body : String
  wroteHeader : Bool
  connErr : GoError
deriving DecidableEq, Repr

/-- A fresh recorder on a working connection (`httptest.NewRecorder()`). -/
def Recorder.fresh : Recorder := ⟨[], 200, "", false, none⟩

/-- `WriteHeader`: only the first call has an effect. -/
def Recorder.WriteHeader (rw : Recorder) (code : Nat) : Recorder :=
  if rw.wroteHeader then rw else { rw with Code := code, wroteHeader := true }

/-- `Write`: sends the header with status 200 if it was not sent yet, then
appends to the body, or fails when the connection is gone. -/
def Recorder.Write (rw : Recorder) (buf : String) : Recorder × Nat × GoError :=
  let rw := rw.WriteHeader 200
  match rw.connErr with
  | some err => (rw, 0, some err)
  | none => ({ rw with Body := rw.Body ++ buf }, len buf, none)

/-- The recorder as a `ResponseWriter`. -/
def recorder : ResponseWriter Recorder where
  Header := fun rw => rw.HeaderMap
  putHeader := fun rw h => { rw with HeaderMap := h }
  Write := Recorder.Write
  WriteHeader := Recorder.WriteHeader

/-- A method call on a response writer that changes the response. -/
inductive Call
  | putHeader (h : Header)
  | Write (buf : String)
  | WriteHeader (code : Nat)
deriving DecidableEq, Repr

/-- Any response writer, wrapped so that every call made on it is appended to
a log before it is passed on. -/
def spy {σ : Type} (W : ResponseWriter σ) : ResponseWriter (σ × List Call) where
  Header := fun s => W.Header s.1
  putHeader := fun s h => (W.putHeader s.1 h, s.2 ++ [Call.putHeader h])
  Write := fun s buf =>
    let res := W.Write s.1 buf
    ((res.1, s.2 ++ [Call.Write buf]), res.2)
  WriteHeader := fun s code => (W.WriteHeader s.1 code, s.2 ++ [Call.WriteHeader code])

/-! ## The process and `main` -/

/-- What `http.ListenAndServe` does in the end: it returns a non-nil error
(the bind failed, or serving failed later), or it keeps serving. -/
inductive ListenResult
  | returns (err : String)
  | blocks
deriving DecidableEq, Repr

/-- The environment of the process. -/
structure OS where
  Args : List String
  Environ : List String
  stamp : String
  listen : String → ListenResult

/-- An effect of `main` that is visible outside the process or in the
package-level router. -/
inductive Event
  | log (s : String)
  | HandleFunc (pattern : String) (handler : HandlerFunc)
  | ListenAndServe (addr : String) (handler : Option Handler)
deriving DecidableEq, Repr

/-- Where the process stands: running `main`, blocked in the listen call for
good, exited, or stopped by a panic. -/
inductive Status
  | running
  | serving
  | exited (code : Nat)
  | panicked (v : String)
deriving DecidableEq, Repr

/-- The state of the process. -/
structure World where
  DefaultServeMux : ServeMux
  stderr : List String
  trace : List Event
  srv : Option Server
  status : Status
deriving DecidableEq, Repr

/-- The process at the entry of `main`. -/
def World.init : World := ⟨NewServeMux, [], [], none, .running⟩

/-- Go `fmt.Sprintf(format)` without operands: text is copied, `%%` is a
percent sign, any other verb reports its missing operand. -/
def sprintfChars : List Char → List Char
  | [] => []
  | ['%'] => "%!(NOVERB)".data
  | '%' :: '%' :: rest => '%' :: sprintfChars rest
  | '%' :: v :: rest => "%!".data ++ v :: "(MISSING)".data ++ sprintfChars rest
  | c :: rest => c :: sprintfChars rest

/-- Go `log.Printf(format)` on the standard logger: one line on standard
error, made of the logger's header (date and time, `os.stamp`), the formatted
message and a newline unless the message ends in one. -/
def logPrintf (os : OS) (w : World) (format : String) : World :=
  if w.status ≠ .running then w
  else
    let s : String := ⟨sprintfChars format.data⟩
    let line := os.stamp ++ s ++ (if s.data.getLast? = some '\n' then "" else "\n")
    { w with stderr := w.stderr ++ [line], trace := w.trace ++ [Event.log s] }

/-- Go `http.HandleFunc(pattern, handler)`: registers the function on
`DefaultServeMux`; a panic of `Handle` stops the process. -/
def HandleFunc (w : World) (pattern : String) (handler : HandlerFunc) : World :=
  if w.status ≠ .running then w
  else
    let w := { w with trace := w.trace ++ [Event.HandleFunc pattern handler] }
    match w.DefaultServeMux.Handle pattern (Handler.func handler) with
    | .ok mux => { w with DefaultServeMux := mux }
    | .error v => { w with status := .panicked v }

/-- Go `http.ListenAndServe(addr, handler)`: builds the server and listens; it
either returns the error to its caller or never returns. -/
def ListenAndServe (os : OS) (w : World) (addr : String) (handler : Option Handler) :
    World × GoError :=
  if w.status ≠ .running then (w, none)
  else
    let w := { w with trace := w.trace ++ [Event.ListenAndServe addr handler]
                      srv := some ⟨addr, handler⟩ }
    match os.listen addr with
    | .returns err => (w, some err)
    | .blocks => ({ w with status := .serving }, none)

/-- Return from `main`: the process exits with status 0. -/
def World.exit (w : World) : World :=
  if w.status = .running then { w with status := .exited 0 } else w

/-- Lines 23-28: `func main()`. -/
def main (os : OS) : World :=
  let w := World.init
  let w := logPrintf os w "Listening on port 8000..."
  let w := HandleFunc w "/version" .versionHandler
  let w := HandleFunc w "/" .rootHandler
  let (w, _err) := ListenAndServe os w ":8000" none
  w.exit

/-- The answer of the server that the process started to one request, written
to `rw`; there is none before the listen call. -/
def World.respond {σ : Type} (lib : Lib) (W : ResponseWriter σ) (world : World) (rw : σ)
    (r : Request) : Option (Env σ) :=
  world.srv.map fun srv => srv.ServeHTTP lib W ⟨rw, r, world.DefaultServeMux⟩

/-- The router after the server has answered the requests one after the other,
each on a fresh recorder. -/
def serveAll (lib : Lib) (srv : Server) : ServeMux → List Request → ServeMux
  | mux, [] => mux
  | mux, r :: rs => serveAll lib srv (srv.ServeHTTP lib recorder ⟨Recorder.fresh, r, mux⟩).DefaultServeMux rs

/-- The listen calls in a trace, in order. -/
def listenCalls : List Event → List Server
  | [] => []
  | Event.ListenAndServe addr handler :: rest => ⟨addr, handler⟩ :: listenCalls rest
  | _ :: rest => listenCalls rest

/-- The messages logged in a trace, in order. -/
def logCalls : List Event → List String
  | [] => []
  | Event.log s :: rest => s :: logCalls rest
  | _ :: rest => logCalls rest

/-- The registrations in a trace, in order. -/
def handleCalls : List Event → List (String × HandlerFunc)
  | [] => []
  | Event.HandleFunc pattern handler :: rest => (pattern, handler) :: handleCalls rest
  | _ :: rest => handleCalls rest

/-! ## Sample environment -/

/-- A library instance: host unchanged, query appended after a question
mark. -/
def sampleLib : Lib where
  stripHostPort := fun h => h
  urlString := fun u => if u.RawQuery = "" then u.Path else u.Path ++ "?" ++ u.RawQuery
  redirectLocation := fun _ url => url
  redirectNote := fun url _ => "<a href=\"" ++ url ++ "\">Moved Permanently</a>.\n"

/-- An environment in which port 8000 is already taken. -/
def busyOS : OS where
  Args := ["server"]
  Environ := ["PORT=9000"]
  stamp := "2009/11/10 23:00:00 "
  listen := fun _ => .returns "listen tcp :8000: bind: address already in use"

/-- An environment in which the listen call succeeds. -/
def freeOS : OS where
  Args := ["server", "-port", "9000"]
  Environ := []
  stamp := "2009/11/10 23:00:00 "
  listen := fun _ => .blocks

/-- A request as the server reads it from `method target HTTP/1.1`. -/
def sampleRequest (method path : String) : Request :=
  ⟨method, ⟨"", path, ""⟩, 1, 1, "localhost:8000", path, [("Accept", "*/*")], ""⟩

/-- The router that `main` has built when it reaches the listen call. -/
def wiredMux : ServeMux :=
  { m := [("/", ⟨Handler.func .rootHandler, "/"⟩),
          ("/version", ⟨Handler.func .versionHandler, "/version"⟩)]
    es := [⟨Handler.func .rootHandler, "/"⟩]
    hosts := false }

/-! ## Facts about strings and paths -/

theorem hasPrefix_slash (s : String) : HasPrefix s "/" = true ↔ s.data.head? = some '/' := by
  unfold HasPrefix
  cases h : s.data with
  | nil => simp [List.isPrefixOf]
  | cons c cs =>
    have : ("/" : String).data = ['/'] := rfl
    simp only [this, List.isPrefixOf, List.head?, Bool.and_true, beq_iff_eq, Option.some.injEq]
    exact eq_comm

theorem append_slash_ne_root (c : String) (h : c ≠ "") : c ++ "/" ≠ "/" := by
  intro heq
  have hd := congrArg String.data heq
  simp at hd
  exact h (String.ext hd)

theorem append_slash_ne_version (c : String) : c ++ "/" ≠ "/version" := by
  intro heq
  have hd := congrArg (fun s => s.data.getLast?) heq
  simp at hd

theorem append_ne_empty (a b : String) (h : b ≠ "") : a ++ b ≠ "" := by
  intro heq
  have hd := congrArg String.data heq
  simp at hd
  exact h (String.ext hd.2)

theorem pathClean_rooted (p : String) (h : p.data.head? = some '/') :
    (pathClean p).data.head? = some '/' := by
  have hne : p ≠ "" := by
    intro he
    rw [he] at h
    simp at h
  simp [pathClean, hne, h]

theorem cleanPath_rooted (p : String) : (cleanPath p).data.head? = some '/' := by
  unfold cleanPath
  by_cases hp : p = ""
  · simp [hp]
  · simp only [hp, if_false]
    have hq : ∀ q : String, q.data.head? = some '/' →
        (if endsInSlash q = true ∧ pathClean q ≠ "/" then
          if len q = len (pathClean q) + 1 ∧ HasPrefix q (pathClean q) = true then q
          else pathClean q ++ "/"
        else pathClean q).data.head? = some '/' := by
      intro q hq
      have hc := pathClean_rooted q hq
      split_ifs
      · exact hq
      · cases hd : (pathClean q).data with
        | nil => rw [hd] at hc; simp at hc
        | cons a as => rw [hd] at hc; simp [hd] at hc ⊢; exact hc
      · exact hc
    by_cases hh : p.data.head? = some '/'
    · simpa [hh] using hq p hh
    · have := hq ("/" ++ p) (by simp)
      simpa [hh] using this

/-! ## Facts about the router of `main` -/

theorem lookup_wired (c : String) :
    wiredMux.m.lookup c =
      if c = "/" then some ⟨Handler.func .rootHandler, "/"⟩
      else if c = "/version" then some ⟨Handler.func .versionHandler, "/version"⟩
      else none := by
  simp only [wiredMux, List.lookup]
  by_cases h1 : c = "/"
  · simp [h1]
  · by_cases h2 : c = "/version"
    · simp [h2]
    · have e1 : (c == "/") = false := by simpa using h1
      have e2 : (c == "/version") = false := by simpa using h2
      simp [h1, h2, e1, e2]

theorem match_wired (path : String) :
    wiredMux.match' path =
      if path = "/version" then (some (Handler.func .versionHandler), "/version")
      else if HasPrefix path "/" then (some (Handler.func .rootHandler), "/")
      else (none, "") := by
  unfold ServeMux.match'
  rw [lookup_wired]
  by_cases h1 : path = "/"
  · subst h1; decide
  · by_cases h2 : path = "/version"
    · subst h2; decide
    · simp only [h1, h2, if_false]
      by_cases h3 : HasPrefix path "/" = true
      · simp [wiredMux, List.find?, h3]
      · simp [wiredMux, List.find?, h3]

theorem handler_wired (host path : String) :
    wiredMux.handler host path =
      if path = "/version" then (Handler.func .versionHandler, "/version")
      else if HasPrefix path "/" then (Handler.func .rootHandler, "/")
      else (Handler.NotFoundHandler, "") := by
  unfold ServeMux.handler
  have hh : wiredMux.hosts = false := rfl
  simp only [hh, match_wired]
  by_cases h2 : path = "/version"
  · simp [h2]
  · by_cases h3 : HasPrefix path "/" = true
    · simp [h2, h3]
    · simp [h2, h3]

theorem shouldRedirect_wired (host path : String) :
    wiredMux.shouldRedirectRLocked host path = false := by
  unfold ServeMux.shouldRedirectRLocked
  by_cases h0 : path = ""
  · subst h0
    have : len "" = 0 := by decide
    simp [this]
  · have h1 : path ++ "/" ≠ "/" := append_slash_ne_root path h0
    have h2 : host ++ path ++ "/" ≠ "/" :=
      append_slash_ne_root (host ++ path) (append_ne_empty host path h0)
    have h3 := append_slash_ne_version path
    have h4 := append_slash_ne_version (host ++ path)
    simp [lookup_wired, h1, h2, h3, h4]

theorem Handler_wired (lib : Lib) (r : Request) :
    wiredMux.Handler lib r =
      if r.Method = "CONNECT" then wiredMux.handler r.Host r.URL.Path
      else if cleanPath r.URL.Path ≠ r.URL.Path then
        (Handler.RedirectHandler (lib.urlString ⟨"", cleanPath r.URL.Path, r.URL.RawQuery⟩) 301,
          (wiredMux.handler (lib.stripHostPort r.Host) (cleanPath r.URL.Path)).2)
      else wiredMux.handler (lib.stripHostPort r.Host) r.URL.Path := by
  simp [ServeMux.Handler, ServeMux.redirectToPathSlash, shouldRedirect_wired]

theorem main_mux (os : OS) : (main os).DefaultServeMux = wiredMux := by
  unfold main
  cases h : os.listen ":8000" <;>
    simp [h, World.init, logPrintf, HandleFunc, ListenAndServe, World.exit, ServeMux.Handle,
      NewServeMux, endsInSlash, appendSorted, List.lookup, wiredMux]

theorem main_srv (os : OS) : (main os).srv = some ⟨":8000", none⟩ := by
  unfold main
  cases h : os.listen ":8000" <;>
    simp [h, World.init, logPrintf, HandleFunc, ListenAndServe, World.exit, ServeMux.Handle,
      NewServeMux, endsInSlash, appendSorted, List.lookup]

theorem main_trace (os : OS) :
    (main os).trace =
      [Event.log "Listening on port 8000...",
       Event.HandleFunc "/version" .versionHandler,
       Event.HandleFunc "/" .rootHandler,
       Event.ListenAndServe ":8000" none] := by
  unfold main
  cases h : os.listen ":8000" <;>
    simp [h, World.init, logPrintf, HandleFunc, ListenAndServe, World.exit, ServeMux.Handle,
      NewServeMux, endsInSlash, appendSorted, List.lookup, sprintfChars]

theorem main_stderr (os : OS) :
    (main os).stderr = [os.stamp ++ "Listening on port 8000..." ++ "\n"] := by
  unfold main
  cases h : os.listen ":8000" <;>
    simp [h, World.init, logPrintf, HandleFunc, ListenAndServe, World.exit, ServeMux.Handle,
      NewServeMux, endsInSlash, appendSorted, List.lookup, sprintfChars]

theorem main_status (os : OS) :
    (main os).status =
      match os.listen ":8000" with
      | .returns _ => Status.exited 0
      | .blocks => Status.serving := by
  unfold main
  cases h : os.listen ":8000" <;>
    simp [h, World.init, logPrintf, HandleFunc, ListenAndServe, World.exit, ServeMux.Handle,
      NewServeMux, endsInSlash, appendSorted, List.lookup]

theorem respond_main {σ : Type} (os : OS) (lib : Lib) (W : ResponseWriter σ) (rw : σ)
    (r : Request) :
    (main os).respond lib W rw r =
      some (Server.ServeHTTP lib W ⟨":8000", none⟩ ⟨rw, r, wiredMux⟩) := by
  simp [World.respond, main_srv, main_mux]

theorem serve_wired {σ : Type} (lib : Lib) (W : ResponseWriter σ) (addr : String) (rw : σ)
    (r : Request) (h : r.RequestURI ≠ "*") :
    Server.ServeHTTP lib W ⟨addr, none⟩ ⟨rw, r, wiredMux⟩ =
      (wiredMux.Handler lib r).1.ServeHTTP lib W ⟨rw, r, wiredMux⟩ := by
  simp [Server.ServeHTTP, ServeMux.ServeHTTP, h]

theorem dispatch_wired (lib : Lib) (r : Request) :
    (wiredMux.Handler lib r).1 =
      if r.Method = "CONNECT" then
        if r.URL.Path = "/version" then Handler.func .versionHandler
        else if HasPrefix r.URL.Path "/" then Handler.func .rootHandler
        else Handler.NotFoundHandler
      else if cleanPath r.URL.Path ≠ r.URL.Path then
        Handler.RedirectHandler (lib.urlString ⟨"", cleanPath r.URL.Path, r.URL.RawQuery⟩) 301
      else if r.URL.Path = "/version" then Handler.func .versionHandler
      else Handler.func .rootHandler := by
  rw [Handler_wired]
  by_cases hc : r.Method = "CONNECT"
  · simp only [hc, if_true, handler_wired]
    split_ifs <;> rfl
  · simp only [hc, if_false]
    by_cases hcl : cleanPath r.URL.Path = r.URL.Path
    · have hroot : HasPrefix r.URL.Path "/" = true := by
        rw [hasPrefix_slash, ← hcl]
        exact cleanPath_rooted _
      simp only [hcl, ne_eq, not_true_eq_false, if_false, handler_wired, hroot, if_true]
      split_ifs <;> rfl
    · simp [hcl]

theorem not_star_of_rooted (r : Request) (hr : r.fromServer)
    (hp : r.URL.Path.data.head? = some '/') : r.RequestURI ≠ "*" := by
  intro hs
  rcases hr hs with h | h <;> rw [h] at hp <;> simp at hp

theorem rootHandler_fresh (r : Request) (mux : ServeMux) :
    rootHandler (spy recorder) ⟨(Recorder.fresh, []), r, mux⟩ =
      ⟨(⟨[], 200, "Hello, World!", true, none⟩, [Call.Write "Hello, World!"]), r, mux⟩ := by
  simp [rootHandler, ioWriteString, spy, recorder, Recorder.Write, Recorder.WriteHeader,
    Recorder.fresh]

theorem versionHandler_fresh (r : Request) (mux : ServeMux) :
    versionHandler (spy recorder) ⟨(Recorder.fresh, []), r, mux⟩ =
      ⟨(⟨[], 200, "2.0.2", true, none⟩, [Call.Write "2.0.2"]), r, mux⟩ := by
  simp [versionHandler, ioWriteString, spy, recorder, Recorder.Write, Recorder.WriteHeader,
    Recorder.fresh, version]

theorem rootHandler_recorder (r : Request) (mux : ServeMux) :
    rootHandler recorder ⟨Recorder.fresh, r, mux⟩ =
      ⟨⟨[], 200, "Hello, World!", true, none⟩, r, mux⟩ := by
  simp [rootHandler, ioWriteString, recorder, Recorder.Write, Recorder.WriteHeader,
    Recorder.fresh]

theorem Handler_ServeHTTP_frame {σ : Type} (lib : Lib) (W : ResponseWriter σ) (h : Handler)
    (e : Env σ) :
    (h.ServeHTTP lib W e).DefaultServeMux = e.DefaultServeMux ∧ (h.ServeHTTP lib W e).r = e.r := by
  cases h with
  | func f => cases f <;> exact ⟨rfl, rfl⟩
  | NotFoundHandler => exact ⟨rfl, rfl⟩
  | RedirectHandler url code => exact ⟨rfl, rfl⟩

theorem Server_ServeHTTP_mux {σ : Type} (lib : Lib) (W : ResponseWriter σ) (srv : Server)
    (e : Env σ) : (Server.ServeHTTP lib W srv e).DefaultServeMux = e.DefaultServeMux := by
  unfold Server.ServeHTTP
  split_ifs
  · rfl
  · cases srv.Handler with
    | none =>
      simp only [ServeMux.ServeHTTP]
      split_ifs <;> first | rfl | exact (Handler_ServeHTTP_frame lib W _ e).1
    | some h => exact (Handler_ServeHTTP_frame lib W h e).1

theorem serveAll_fixed (lib : Lib) (srv : Server) (mux : ServeMux) (hist : List Request) :
    serveAll lib srv mux hist = mux := by
  induction hist generalizing mux with
  | nil => rfl
  | cons r rs ih =>
    simp only [serveAll]
    rw [Server_ServeHTTP_mux]
    exact ih mux

theorem Handler_congr (lib : Lib) (mux mux' : ServeMux)
    (hl : ∀ c, mux.m.lookup c = mux'.m.lookup c) (hes : mux.es = mux'.es)
    (hh : mux.hosts = mux'.hosts) (r : Request) : mux.Handler lib r = mux'.Handler lib r := by
  simp only [ServeMux.Handler, ServeMux.redirectToPathSlash, ServeMux.shouldRedirectRLocked,
    ServeMux.handler, ServeMux.match', hl, hes, hh]

theorem swapped_registration :
    HandleFunc (HandleFunc World.init "/" .rootHandler) "/version" .versionHandler =
      { DefaultServeMux :=
          { m := [("/version", ⟨Handler.func .versionHandler, "/version"⟩),
                  ("/", ⟨Handler.func .rootHandler, "/"⟩)]
            es := [⟨Handler.func .rootHandler, "/"⟩]
            hosts := false }
        stderr := []
        trace := [Event.HandleFunc "/" .rootHandler, Event.HandleFunc "/version" .versionHandler]
        srv := none
        status := Status.running } := by
  decide

theorem lookup_swapped (c : String) :
    (HandleFunc (HandleFunc World.init "/" .rootHandler) "/version"
        .versionHandler).DefaultServeMux.m.lookup c = wiredMux.m.lookup c := by
  rw [swapped_registration, lookup_wired]
  simp only [List.lookup]
  by_cases h1 : c = "/"
  · subst h1; decide
  · by_cases h2 : c = "/version"
    · subst h2; decide
    · have e1 : (c == "/") = false := by simpa using h1
      have e2 : (c == "/version") = false := by simpa using h2
      simp [h1, h2, e1, e2]

/-! ## The claims -/

/-- C1: every request for the path `/` that the server hands on, whatever its
method, header or body, is dispatched by the router of `main` to `rootHandler`;
on a fresh response writer the status is 200 without any `WriteHeader` call
(the one call on the writer is the write), and the body is exactly the 13
characters `Hello, World!`. -/
theorem root_path_response (os : OS) (lib : Lib) (r : Request) (hr : r.fromServer)
    (hp : r.URL.Path = "/") :
    ((main os).DefaultServeMux.Handler lib r).1 = Handler.func .rootHandler ∧
    ∃ e, (main os).respond lib (spy recorder) (Recorder.fresh, []) r = some e ∧
      e.w.1.Code = 200 ∧ e.w.1.Body = "Hello, World!" ∧ e.w.1.Body.length = 13 ∧
      e.w.2 = [Call.Write "Hello, World!"] := by
  have hstar : r.RequestURI ≠ "*" := not_star_of_rooted r hr (by rw [hp]; rfl)
  have hd : (wiredMux.Handler lib r).1 = Handler.func .rootHandler := by
    rw [dispatch_wired, hp]
    have h1 : cleanPath "/" = "/" := by decide
    have h2 : HasPrefix "/" "/" = true := by decide
    have h3 : ("/" : String) ≠ "/version" := by decide
    simp [h1, h2, h3]
  refine ⟨by rw [main_mux]; exact hd, ?_⟩
  rw [respond_main, serve_wired lib _ _ _ r hstar, hd]
  refine ⟨_, rfl, ?_⟩
  simp only [Handler.ServeHTTP, HandlerFunc.call, rootHandler_fresh]
  decide

/-- Witness for C1: a POST request for `/` with a header and a body. -/
theorem root_path_response_witness :
    ((main freeOS).DefaultServeMux.Handler sampleLib
        ⟨"POST", ⟨"", "/", "a=1"⟩, 1, 1, "localhost:8000", "/?a=1", [("X-Id", "7")], "payload"⟩).1
      = Handler.func .rootHandler ∧
    ∃ e, (main freeOS).respond sampleLib (spy recorder) (Recorder.fresh, [])
        ⟨"POST", ⟨"", "/", "a=1"⟩, 1, 1, "localhost:8000", "/?a=1", [("X-Id", "7")], "payload"⟩
        = some e ∧
      e.w.1.Code = 200 ∧ e.w.1.Body = "Hello, World!" ∧ e.w.1.Body.length = 13 ∧
      e.w.2 = [Call.Write "Hello, World!"] :=
  root_path_response freeOS sampleLib
    ⟨"POST", ⟨"", "/", "a=1"⟩, 1, 1, "localhost:8000", "/?a=1", [("X-Id", "7")], "payload"⟩
    (by decide) rfl

/-- C2: every request for the path `/version` that the server hands on is
dispatched to `versionHandler` and not to `rootHandler`; on a fresh response
writer the status is 200 and the body is exactly the constant `version`, the
literal `2.0.2`, so any two such requests get the same body. -/
theorem version_path_response (os : OS) (lib : Lib) (r r' : Request) (hr : r.fromServer)
    (hp : r.URL.Path = "/version") (hr' : r'.fromServer) (hp' : r'.URL.Path = "/version") :
    ((main os).DefaultServeMux.Handler lib r).1 = Handler.func .versionHandler ∧
    ((main os).DefaultServeMux.Handler lib r).1 ≠ Handler.func .rootHandler ∧
    version = "2.0.2" ∧
    ∃ e e', (main os).respond lib (spy recorder) (Recorder.fresh, []) r = some e ∧
      (main os).respond lib (spy recorder) (Recorder.fresh, []) r' = some e' ∧
      e.w.1.Code = 200 ∧ e.w.1.Body = version ∧ e.w.2 = [Call.Write version] ∧
      e'.w.1.Body = e.w.1.Body := by
  have hv : ∀ q : Request, q.fromServer → q.URL.Path = "/version" →
      q.RequestURI ≠ "*" ∧ (wiredMux.Handler lib q).1 = Handler.func .versionHandler := by
    intro q hq hqp
    refine ⟨not_star_of_rooted q hq (by rw [hqp]; rfl), ?_⟩
    rw [dispatch_wired, hqp]
    have h1 : cleanPath "/version" = "/version" := by decide
    simp [h1]
  obtain ⟨hs, hd⟩ := hv r hr hp
  obtain ⟨hs', hd'⟩ := hv r' hr' hp'
  refine ⟨by rw [main_mux]; exact hd, by rw [main_mux, hd]; decide, rfl, ?_⟩
  rw [respond_main, respond_main, serve_wired lib _ _ _ r hs, serve_wired lib _ _ _ r' hs',
    hd, hd']
  refine ⟨_, _, rfl, rfl, ?_⟩
  simp only [Handler.ServeHTTP, HandlerFunc.call, versionHandler_fresh]
  decide

/-- Witness for C2: `POST /version` with a body and `GET /version`. -/
theorem version_path_response_witness :
    ((main freeOS).DefaultServeMux.Handler sampleLib
        ⟨"POST", ⟨"", "/version", ""⟩, 1, 1, "localhost:8000", "/version", [], "x"⟩).1
      = Handler.func .versionHandler ∧
    ((main freeOS).DefaultServeMux.Handler sampleLib
        ⟨"POST", ⟨"", "/version", ""⟩, 1, 1, "localhost:8000", "/version", [], "x"⟩).1
      ≠ Handler.func .rootHandler ∧
    version = "2.0.2" ∧
    ∃ e e', (main freeOS).respond sampleLib (spy recorder) (Recorder.fresh, [])
        ⟨"POST", ⟨"", "/version", ""⟩, 1, 1, "localhost:8000", "/version", [], "x"⟩ = some e ∧
      (main freeOS).respond sampleLib (spy recorder) (Recorder.fresh, [])
        (sampleRequest "GET" "/version") = some e' ∧
      e.w.1.Code = 200 ∧ e.w.1.Body = version ∧ e.w.2 = [Call.Write version] ∧
      e'.w.1.Body = e.w.1.Body :=
  version_path_response freeOS sampleLib
    ⟨"POST", ⟨"", "/version", ""⟩, 1, 1, "localhost:8000", "/version", [], "x"⟩
    (sampleRequest "GET" "/version") (by decide) rfl (by decide) rfl

/-- C3, counterexample: `GET /nonexistent` has a path that is neither `/` nor
`/version`, yet the router of `main` selects `rootHandler` and the response is
200 with the body `Hello, World!`, not the 404 of the library. -/
theorem unregistered_path_not_404 :
    (sampleRequest "GET" "/nonexistent").URL.Path ≠ "/" ∧
    (sampleRequest "GET" "/nonexistent").URL.Path ≠ "/version" ∧
    ((main freeOS).DefaultServeMux.Handler sampleLib (sampleRequest "GET" "/nonexistent")).1
      = Handler.func .rootHandler ∧
    ((main freeOS).respond sampleLib recorder Recorder.fresh
        (sampleRequest "GET" "/nonexistent")).map (fun e => (e.w.Code, e.w.Body))
      = some (200, "Hello, World!") := by
  decide

/-- C3, amended: for a request whose path is neither `/` nor `/version` the
router of `main` never selects `versionHandler`; and when the path is in
cleaned form and the request target is not `*`, the pattern `/` matches: the
router selects `rootHandler` and the response is not the 404 of the library
but 200 with the body `Hello, World!`. -/
theorem unregistered_path_response (os : OS) (lib : Lib) (r : Request)
    (h1 : r.URL.Path ≠ "/") (h2 : r.URL.Path ≠ "/version") :
    ((main os).DefaultServeMux.Handler lib r).1 ≠ Handler.func .versionHandler ∧
    (r.RequestURI ≠ "*" → cleanPath r.URL.Path = r.URL.Path →
      ((main os).DefaultServeMux.Handler lib r).1 = Handler.func .rootHandler ∧
      ∃ e, (main os).respond lib recorder Recorder.fresh r = some e ∧
        e.w.Code ≠ 404 ∧ e.w.Code = 200 ∧ e.w.Body = "Hello, World!") := by
  have _ := h1
  rw [main_mux, respond_main]
  constructor
  · rw [dispatch_wired]
    simp only [h2, if_false]
    split_ifs <;> simp
  · intro hs hcl
    have hroot : HasPrefix r.URL.Path "/" = true := by
      rw [hasPrefix_slash, ← hcl]
      exact cleanPath_rooted _
    have hd : (wiredMux.Handler lib r).1 = Handler.func .rootHandler := by
      rw [dispatch_wired]
      simp [hcl, h2, hroot]
    rw [serve_wired lib _ _ _ r hs, hd]
    refine ⟨rfl, _, rfl, ?_⟩
    simp only [Handler.ServeHTTP, HandlerFunc.call, rootHandler_recorder]
    decide

/-- Witness for C3, amended: `GET /nonexistent` is answered by `rootHandler`. -/
theorem unregistered_path_response_witness :
    (sampleRequest "GET" "/nonexistent").URL.Path ≠ "/" ∧
    (sampleRequest "GET" "/nonexistent").URL.Path ≠ "/version" ∧
    (sampleRequest "GET" "/nonexistent").RequestURI ≠ "*" ∧
    cleanPath (sampleRequest "GET" "/nonexistent").URL.Path
      = (sampleRequest "GET" "/nonexistent").URL.Path ∧
    ∃ e, (main freeOS).respond sampleLib recorder Recorder.fresh
        (sampleRequest "GET" "/nonexistent") = some e ∧
      e.w.Code ≠ 404 ∧ e.w.Code = 200 ∧ e.w.Body = "Hello, World!" :=
  ⟨by decide, by decide, by decide, by decide,
    ((unregistered_path_response freeOS sampleLib (sampleRequest "GET" "/nonexistent")
      (by decide) (by decide)).2 (by decide) (by decide)).2⟩

/-- C4: when the listen call of `main` returns an error, the process ends at
once: the listen call is the last effect of `main`, it occurs once, the process
has exited, and standard error holds nothing but the startup line that was
written before the call. -/
theorem bind_failure_fatal (os : OS) (err : String)
    (h : os.listen ":8000" = ListenResult.returns err) :
    (main os).status = Status.exited 0 ∧
    listenCalls (main os).trace = [⟨":8000", none⟩] ∧
    (main os).trace.getLast? = some (Event.ListenAndServe ":8000" none) ∧
    logCalls (main os).trace = ["Listening on port 8000..."] ∧
    (main os).stderr = [os.stamp ++ "Listening on port 8000..." ++ "\n"] := by
  refine ⟨?_, ?_, ?_, ?_, main_stderr os⟩
  · rw [main_status, h]
  · rw [main_trace]; rfl
  · rw [main_trace]; rfl
  · rw [main_trace]; rfl

/-- Witness for C4: port 8000 is already in use. -/
theorem bind_failure_fatal_witness :
    busyOS.listen ":8000" =
      ListenResult.returns "listen tcp :8000: bind: address already in use" ∧
    (main busyOS).status = Status.exited 0 ∧
    listenCalls (main busyOS).trace = [⟨":8000", none⟩] ∧
    (main busyOS).trace.getLast? = some (Event.ListenAndServe ":8000" none) ∧
    logCalls (main busyOS).trace = ["Listening on port 8000..."] ∧
    (main busyOS).stderr = [busyOS.stamp ++ "Listening on port 8000..." ++ "\n"] :=
  ⟨rfl, bind_failure_fatal busyOS "listen tcp :8000: bind: address already in use" rfl⟩

/-- C5: in every run of `main` the listen call occurs exactly once, with the
address `:8000` and the nil handler, after both patterns were registered on the
default router; the call is the same in any two environments, whatever their
arguments and environment variables. -/
theorem listen_once_fixed_address (os os' : OS) :
    listenCalls (main os).trace = [⟨":8000", none⟩] ∧
    (main os).srv = some ⟨":8000", none⟩ ∧
    (∃ pre, (main os).trace = pre ++ [Event.ListenAndServe ":8000" none] ∧
      handleCalls pre = [("/version", .versionHandler), ("/", .rootHandler)]) ∧
    ((main os).DefaultServeMux.m.lookup "/version").map (fun v => v.h)
      = some (Handler.func .versionHandler) ∧
    ((main os).DefaultServeMux.m.lookup "/").map (fun v => v.h)
      = some (Handler.func .rootHandler) ∧
    listenCalls (main os').trace = listenCalls (main os).trace := by
  refine ⟨?_, main_srv os, ?_, ?_, ?_, ?_⟩
  · rw [main_trace]; rfl
  · rw [main_trace]
    exact ⟨[Event.log "Listening on port 8000...", Event.HandleFunc "/version" .versionHandler,
      Event.HandleFunc "/" .rootHandler], rfl, rfl⟩
  · rw [main_mux]; decide
  · rw [main_mux]; decide
  · rw [main_trace, main_trace]

/-- C6: in every run of `main` exactly one message is logged, its text is
`Listening on port 8000...`, standard error holds exactly the line made of the
logger's header, that text and a newline, the port in the text is the port of
the listen address, and the log is the first effect of `main`, with the one
listen call after it. -/
theorem startup_log_once_before_listen (os : OS) :
    logCalls (main os).trace = ["Listening on port 8000..."] ∧
    (main os).stderr = [os.stamp ++ "Listening on port 8000..." ++ "\n"] ∧
    ∃ post, (main os).trace = Event.log ("Listening on port " ++ "8000" ++ "...") :: post ∧
      logCalls post = [] ∧ listenCalls post = [⟨":" ++ "8000", none⟩] := by
  refine ⟨?_, main_stderr os, ?_⟩
  · rw [main_trace]; rfl
  · rw [main_trace]
    exact ⟨[Event.HandleFunc "/version" .versionHandler, Event.HandleFunc "/" .rootHandler,
      Event.ListenAndServe ":8000" none], by decide, by decide, by decide⟩

/-- C9, counterexample: in a run of `main` the log is the first effect; both
registrations come after it, not before. -/
theorem log_precedes_registration :
    (main freeOS).trace.head? = some (Event.log "Listening on port 8000...") ∧
    (main freeOS).trace.indexOf (Event.log "Listening on port 8000...")
      < (main freeOS).trace.indexOf (Event.HandleFunc "/version" .versionHandler) ∧
    (main freeOS).trace.indexOf (Event.log "Listening on port 8000...")
      < (main freeOS).trace.indexOf (Event.HandleFunc "/" .rootHandler) := by
  decide

/-- C9, amended: `main` performs its steps in this order: the startup log
message, the registration of `/version`, the registration of `/`, the listen
call on `:8000`. -/
theorem bootstrap_order (os : OS) :
    (main os).trace =
      [Event.log "Listening on port 8000...",
       Event.HandleFunc "/version" .versionHandler,
       Event.HandleFunc "/" .rootHandler,
       Event.ListenAndServe ":8000" none] :=
  main_trace os

/-- C7: for every response writer, whatever count and error its write returns,
each handler returns and its result is the writer state left by the single
write; putting any other count and error in place of the ones returned does
not change the result, so they are discarded.  On a recorder whose connection
is gone the write fails with the connection's error and `rootHandler` and
`versionHandler` still return, with the body empty. -/
theorem handlers_total_discard {σ : Type} (W : ResponseWriter σ) (e : Env σ)
    (f : σ → String → Nat × GoError) (err : String) (r : Request) (mux : ServeMux) :
    rootHandler W e = { e with w := (W.Write e.w "Hello, World!").1 } ∧
    versionHandler W e = { e with w := (W.Write e.w version).1 } ∧
    rootHandler { W with Write := fun s b => ((W.Write s b).1, f s b) } e = rootHandler W e ∧
    versionHandler { W with Write := fun s b => ((W.Write s b).1, f s b) } e
      = versionHandler W e ∧
    (recorder.Write { Recorder.fresh with connErr := some err } "Hello, World!").2
      = (0, some err) ∧
    rootHandler recorder ⟨{ Recorder.fresh with connErr := some err }, r, mux⟩
      = ⟨⟨[], 200, "", true, some err⟩, r, mux⟩ ∧
    versionHandler recorder ⟨{ Recorder.fresh with connErr := some err }, r, mux⟩
      = ⟨⟨[], 200, "", true, some err⟩, r, mux⟩ := by
  refine ⟨rfl, rfl, rfl, rfl, ?_, ?_, ?_⟩ <;>
    simp [rootHandler, versionHandler, ioWriteString, recorder, Recorder.Write,
      Recorder.WriteHeader, Recorder.fresh]

/-- C8: on every response writer each handler makes exactly one call, the
write of its constant string, and no call that sets a header or the status; it
leaves the request and the router as they were, and what it writes does not
depend on the request.  The router of `main` is the same after any sequence of
requests, so the response to a request does not depend on the requests served
before it. -/
theorem handlers_frame {σ : Type} (W : ResponseWriter σ) (e : Env σ) (r' : Request)
    (os : OS) (lib : Lib) (hist : List Request) (rw : σ) (r : Request) :
    (rootHandler (spy W) ⟨(e.w, []), e.r, e.DefaultServeMux⟩).w.2
      = [Call.Write "Hello, World!"] ∧
    (versionHandler (spy W) ⟨(e.w, []), e.r, e.DefaultServeMux⟩).w.2 = [Call.Write version] ∧
    (rootHandler W e).r = e.r ∧ (versionHandler W e).r = e.r ∧
    (rootHandler W e).DefaultServeMux = e.DefaultServeMux ∧
    (versionHandler W e).DefaultServeMux = e.DefaultServeMux ∧
    (rootHandler W { e with r := r' }).w = (rootHandler W e).w ∧
    (versionHandler W { e with r := r' }).w = (versionHandler W e).w ∧
    serveAll lib ⟨":8000", none⟩ (main os).DefaultServeMux hist = (main os).DefaultServeMux ∧
    Server.ServeHTTP lib W ⟨":8000", none⟩
        ⟨rw, r, serveAll lib ⟨":8000", none⟩ (main os).DefaultServeMux hist⟩
      = Server.ServeHTTP lib W ⟨":8000", none⟩ ⟨rw, r, (main os).DefaultServeMux⟩ := by
  refine ⟨rfl, rfl, rfl, rfl, rfl, rfl, rfl, rfl, serveAll_fixed _ _ _ _, ?_⟩
  rw [serveAll_fixed]

/-- C10, counterexample: `GET /a//b` has the cleaned path `/a/b`, which is not
`/version`, and `CONNECT example.com:443` has the empty path, whose cleaned
form is `/`; for neither does the router of `main` select `rootHandler`, and
neither response has status 200 or the body `Hello, World!`. -/
theorem unclean_path_not_root :
    cleanPath (sampleRequest "GET" "/a//b").URL.Path = "/a/b" ∧
    cleanPath (sampleRequest "GET" "/a//b").URL.Path ≠ "/version" ∧
    (sampleRequest "GET" "/a//b").fromServer ∧
    ((main freeOS).DefaultServeMux.Handler sampleLib (sampleRequest "GET" "/a//b")).1
      ≠ Handler.func .rootHandler ∧
    ((main freeOS).respond sampleLib recorder Recorder.fresh
        (sampleRequest "GET" "/a//b")).map
        (fun e => (decide (e.w.Code = 200), decide (e.w.Body = "Hello, World!")))
      = some (false, false) ∧
    cleanPath "" = "/" ∧
    ((main freeOS).DefaultServeMux.Handler sampleLib
        ⟨"CONNECT", ⟨"example.com:443", "", ""⟩, 1, 1, "example.com:443", "example.com:443",
          [], ""⟩).1 ≠ Handler.func .rootHandler ∧
    ((main freeOS).respond sampleLib recorder Recorder.fresh
        ⟨"CONNECT", ⟨"example.com:443", "", ""⟩, 1, 1, "example.com:443", "example.com:443",
          [], ""⟩).map
        (fun e => (decide (e.w.Code = 200), decide (e.w.Body = "Hello, World!")))
      = some (false, false) := by
  decide

/-- C10, amended: the lookup of the router of `main` on a cleaned path other
than `/version` always ends at `rootHandler` under the pattern `/`; every
request read by the server whose path is already in cleaned form and is not
`/version` is dispatched to `rootHandler` and answered with 200 and
`Hello, World!`; a request reaches `versionHandler` exactly when its path is
`/version`; and registering `/` before `/version` gives a router that selects
the same handler for every request. -/
theorem catch_all_dispatch (os : OS) (lib : Lib) (r : Request) (hr : r.fromServer)
    (hc : cleanPath r.URL.Path = r.URL.Path) (hv : r.URL.Path ≠ "/version") :
    (∀ (q : Request) (host : String), cleanPath q.URL.Path ≠ "/version" →
      (main os).DefaultServeMux.handler host (cleanPath q.URL.Path)
        = (Handler.func .rootHandler, "/")) ∧
    ((main os).DefaultServeMux.Handler lib r).1 = Handler.func .rootHandler ∧
    (∃ e, (main os).respond lib recorder Recorder.fresh r = some e ∧
      e.w.Code = 200 ∧ e.w.Body = "Hello, World!") ∧
    (∀ q : Request, ((main os).DefaultServeMux.Handler lib q).1 = Handler.func .versionHandler ↔
      q.URL.Path = "/version") ∧
    (HandleFunc (HandleFunc World.init "/" .rootHandler) "/version" .versionHandler).status
      = Status.running ∧
    ∀ q : Request,
      (HandleFunc (HandleFunc World.init "/" .rootHandler) "/version"
          .versionHandler).DefaultServeMux.Handler lib q
        = (main os).DefaultServeMux.Handler lib q := by
  have hroot : r.URL.Path.data.head? = some '/' := by
    rw [← hc]; exact cleanPath_rooted _
  have hstar : r.RequestURI ≠ "*" := not_star_of_rooted r hr hroot
  have hd : (wiredMux.Handler lib r).1 = Handler.func .rootHandler := by
    rw [dispatch_wired]
    simp [hc, hv, (hasPrefix_slash _).2 hroot]
  rw [main_mux, respond_main, serve_wired lib _ _ _ r hstar, hd]
  refine ⟨?_, rfl, ⟨_, rfl, ?_⟩, ?_, ?_, ?_⟩
  · intro q host hq
    rw [handler_wired]
    simp [hq, (hasPrefix_slash _).2 (cleanPath_rooted q.URL.Path)]
  · simp only [Handler.ServeHTTP, HandlerFunc.call, rootHandler_recorder]
    decide
  · intro q
    rw [dispatch_wired]
    constructor
    · intro h
      by_contra hq
      simp only [hq, if_false] at h
      split_ifs at h <;> simp at h
    · intro hq
      have h1 : cleanPath "/version" = "/version" := by decide
      simp [hq, h1]
  · rw [swapped_registration]
  · intro q
    exact Handler_congr lib _ _ lookup_swapped
      (by rw [swapped_registration]; rfl) (by rw [swapped_registration]; rfl) q

/-- Witness for C10, amended: `GET /version/`, a cleaned path next to `/version`. -/
theorem catch_all_dispatch_witness :
    (sampleRequest "GET" "/version/").fromServer ∧
    cleanPath (sampleRequest "GET" "/version/").URL.Path
      = (sampleRequest "GET" "/version/").URL.Path ∧
    (sampleRequest "GET" "/version/").URL.Path ≠ "/version" ∧
    ((main freeOS).DefaultServeMux.Handler sampleLib (sampleRequest "GET" "/version/")).1
      = Handler.func .rootHandler ∧
    ∃ e, (main freeOS).respond sampleLib recorder Recorder.fresh
        (sampleRequest "GET" "/version/") = some e ∧
      e.w.Code = 200 ∧ e.w.Body = "Hello, World!" :=
  ⟨by decide, by decide, by decide,
    (catch_all_dispatch freeOS sampleLib (sampleRequest "GET" "/version/")
      (by decide) (by decide) (by decide)).2.1,
    (catch_all_dispatch freeOS sampleLib (sampleRequest "GET" "/version/")
      (by decide) (by decide) (by decide)).2.2.1⟩

end GoPipeline
